import Mathlib

/-!
Verification of customize_sys_hooks.py (a Pythonista startup script that
replaces the display hook and the uncaught-exception hook).

The embedding below translates the source functions into Lean. Conventions:

* A Python string is modelled as its sequence of Unicode code points
  (`List Char`), so that slicing, startswith and length match the Python
  code-point semantics exactly.
* Effects on the console (`console.set_color`, `print`, `console.write_link`,
  and the fallback `traceback.print_exc`) are modelled as an emitted list of
  actions (`Act`).  A `print(x)` call emits the text with a trailing newline;
  `print(x, end="")` emits just the text.
* Python exceptions raised by the hook code itself are modelled with
  `Except PyErr`; a computation that both emits actions and may raise is a
  pair `EW = List Act × Except PyErr Unit` in which the first component holds
  the actions emitted before the raise.
* The theme dictionary is modelled with all of the keys the script reads
  present (a missing key is a configuration error that the specification
  treats as fatal and out of scope).  The host conversion from a hex color
  string to RGBA components (UIColor) is external, so a theme entry is
  modelled directly as its RGBA component tuple.
* `traceback.extract_tb` is external; an exception is therefore modelled as
  an `ExcNode` carrying its already-extracted frame records, its kind
  (syntax error or general), its cause and context links and the
  suppress-context flag, exactly the data the hook reads.
-/

/-- A Python string: its sequence of Unicode code points. -/
abbrev PyStr : Type := List Char

/-- Code points of a Lean string literal, used to embed Python string
literals. -/
def pstr (s : String) : PyStr := s.data

/-- An exception value raised by the embedded Python code itself. -/
inductive PyErr : Type where
  | typeErr : PyStr → PyErr
  | other : PyStr → PyErr
deriving DecidableEq

/-- One console action performed by the hooks: set the pen color, write raw
text, write a tappable link (text plus URL), or the raw fallback dump that
`traceback.print_exc()` produces for a caught error. -/
inductive Act : Type where
  | setColor : List ℚ → Act
  | write : PyStr → Act
  | writeLink : PyStr → PyStr → Act
  | printExc : PyErr → Act
deriving DecidableEq

/-- An effectful computation: the console actions it emitted, and whether it
finished normally or raised.  On a raise, the first component holds the
actions emitted before the raising step. -/
abbrev EW : Type := List Act × Except PyErr Unit

/-- Sequencing of two effectful computations: if the first raises, the second
never runs. -/
def andEW (a : EW) (b : EW) : EW :=
  match a.2 with
  | .error e => (a.1, .error e)
  | .ok _ => (a.1 ++ b.1, b.2)

/-- RGBA components of one theme color, as the host color object
(`UIColor ... arrayFromRGBAComponents()`) reports them.  Channels are exact
rationals in the model. -/
structure RGBA : Type where
  r : ℚ
  g : ℚ
  b : ℚ
  alpha : ℚ
deriving DecidableEq

/-- The theme dictionary entries the script reads, each already converted
from its hex string to RGBA components by the external UIColor call.
`scope_default`, `scope_number` and `scope_function` are the entries
`theme_dict["scopes"][...]["color"]` for the keys `default`, `number` and
`function`. -/
structure Theme : Type where
  error_text : RGBA
  default_text : RGBA
  text_selection_tint : RGBA
  scope_default : RGBA
  scope_number : RGBA
  scope_function : RGBA
deriving DecidableEq

/-- Models Python `round(x, 2)`: round to the nearest multiple of 1/100.
Python rounds a tie to the nearest even float; ties are modelled with the
ambient `round` (half up), which agrees everywhere else. -/
def round2 (x : ℚ) : ℚ := ((round (100 * x) : ℤ) : ℚ) / 100

/-- Embeds `hex2rgb` (source lines 71-76): each RGBA component rounded to two
decimal places, keeping only the first three (`[:3]`, dropping alpha). -/
def hex2rgb (c : RGBA) : List ℚ := [round2 c.r, round2 c.g, round2 c.b]

/-- The argument values `set_color` accepts in the source: the default call
`set_color()`, and the strings `default_text`, `filename`, `lineno`,
`funcname`. -/
inductive ColorType : Type where
  | default
  | default_text
  | filename
  | lineno
  | funcname
deriving DecidableEq

/-- The shared tail of `set_color` (source lines 92-97): blend the scope
color with the error color channel by channel, rounding each mean to two
decimal places, and set that color. -/
def set_color_blend (default_error_color : List ℚ) (scope_entry : RGBA) :
    List Act :=
  let dtrgb := hex2rgb scope_entry
  let mean_color :=
    (List.range 3).map
      (fun i => round2 ((dtrgb.get! i + default_error_color.get! i) / 2))
  [Act.setColor mean_color]

/-- Embeds `set_color` (source lines 78-97).  The error color is fetched on
every call; `default` sets it directly, `default_text` sets the plain theme
text color, and the three token classes set the blended mean color.  Returns
the console actions performed. -/
def set_color (th : Theme) (type_text : ColorType) : List Act :=
  let default_error_color := hex2rgb th.error_text
  match type_text with
  | .default => [Act.setColor default_error_color]
  | .default_text => [Act.setColor (hex2rgb th.default_text)]
  | .filename => set_color_blend default_error_color th.scope_default
  | .lineno => set_color_blend default_error_color th.scope_number
  | .funcname => set_color_blend default_error_color th.scope_function

/-- The environment-derived values the hooks read: the configured root paths
`REMOVE_PREFIXES` (source line 44), the basename of `sys.executable`
(source line 62), and the external `os.path.realpath` (source line 65). -/
structure Env : Type where
  remove_prefixes : List PyStr
  executable_basename : PyStr
  realpath : PyStr → PyStr

/-- The root-stripping loop inside `write_filename` (source lines 52-57):
remove the first configured root that the path starts with; if none
matches, the path is unchanged. -/
def shorten (roots : List PyStr) (path : PyStr) : PyStr :=
  match roots with
  | [] => path
  | p :: rest =>
    if p.isPrefixOf path then path.drop p.length else shorten rest path

/-- Python `s.replace(" ", "%20")` for the one-character pattern used at
source line 65. -/
def replaceSpace : PyStr → PyStr
  | [] => []
  | c :: rest => (if c = ' ' then pstr "%20" else [c]) ++ replaceSpace rest

/-- The URL built for the editor link (source lines 61-65): scheme chosen by
the executable name, then the exec payload with the real path and line
number substituted, with every space percent-encoded. -/
def link_url (env : Env) (path : PyStr) (lineno : Int) : PyStr :=
  (if env.executable_basename = pstr "Pythonista3" then pstr "pythonista3://"
   else pstr "pythonista://") ++
  replaceSpace
    (pstr "?exec=import editor;%20editor.open_file(\x27" ++
     env.realpath path ++
     pstr "\x27, new_tab %3D True); editor.annotate_line(" ++
     pstr (toString lineno) ++ pstr ")")

/-- Embeds `write_filename` (source lines 48-66): a synthetic marker path
(enclosed in angle brackets) is printed as plain text; any other path is
written as a link whose visible text is the shortened path. -/
def write_filename (env : Env) (path : PyStr) (lineno : Int) : List Act :=
  if (pstr "<").isPrefixOf path && (pstr ">").isSuffixOf path then
    [Act.write path]
  else
    [Act.writeLink (shorten env.remove_prefixes path)
      (link_url env path lineno)]

/-- One frame record as produced by the external `traceback.extract_tb`:
file path, line number, function name, and the source text, which is absent
(`None`) when the source cannot be found.  The bytes-decoding branch at
source lines 145-146 is host decoding and is not modelled; text arrives as a
string. -/
structure Frame : Type where
  filename : PyStr
  lineno : Int
  funcname : PyStr
  text : Option PyStr
deriving DecidableEq

/-- The data the hook reads off the exception value, split by kind: a syntax
error carries its own filename, line number, 1-based character offset,
optional source text and message field; every other exception carries the
string form `str(exc_value)` that the summary line prints. -/
inductive ExcKind : Type where
  | syntaxError : (filename : PyStr) → (lineno : Int) → (offset : Nat) →
      (text : Option PyStr) → (msg : PyStr) → ExcKind
  | general : (str_value : PyStr) → ExcKind
deriving DecidableEq

/-- An exception chain node: the module and qualified name of its type, its
kind payload, its extracted frame stack, its cause link, its context link
and the suppress-context flag. -/
inductive ExcNode : Type where
  | mk : (typeModule : PyStr) → (typeQualname : PyStr) → (kind : ExcKind) →
      (frames : List Frame) → (cause : Option ExcNode) →
      (context : Option ExcNode) → (suppress_context : Bool) → ExcNode

/-- Python `text or placeholder` at source line 147: the placeholder is used
when the text is absent and also when it is the empty (falsy) string. -/
def orElseFalsy (text : Option PyStr) (dflt : PyStr) : PyStr :=
  match text with
  | none => dflt
  | some s => if s = [] then dflt else s

/-- The body of the frame loop in `_excepthook` (source lines 127-148): the
File / line / function header with per-token colors, then the indented
source line or the placeholder, then a blank line. -/
def render_frame (th : Theme) (env : Env) (fr : Frame) : List Act :=
  set_color th .default ++ [Act.write (pstr "\tFile ")] ++
  set_color th .filename ++ write_filename env fr.filename fr.lineno ++
  set_color th .default ++ [Act.write (pstr ", line ")] ++
  set_color th .lineno ++ [Act.write (pstr (toString fr.lineno))] ++
  set_color th .default ++ [Act.write (pstr ", in ")] ++
  set_color th .funcname ++ [Act.write fr.funcname] ++
  set_color th .default ++ [Act.write (pstr ":\n")] ++
  set_color th .default ++
  [Act.write (pstr "\t\t" ++
    orElseFalsy fr.text (pstr "# Source code unavailable") ++ pstr "\n")] ++
  [Act.write (pstr "\n")]

/-- The frame loop itself, in stack order. -/
def render_frames (th : Theme) (env : Env) : List Frame → List Act
  | [] => []
  | fr :: rest => render_frame th env fr ++ render_frames th env rest

/-- The summary line of `_excepthook` (source lines 173-189): module name,
a dot, qualified type name, and the message after a colon when the message
is non-empty, then the final newline. -/
def summary_acts (th : Theme) (tm tq msg : PyStr) : List Act :=
  set_color th .filename ++ [Act.write tm] ++
  set_color th .default ++ [Act.write (pstr ".")] ++
  set_color th .funcname ++ [Act.write tq] ++
  (if msg = [] then []
   else set_color th .default ++ [Act.write (pstr ": ")] ++ [Act.write msg]) ++
  [Act.write (pstr "\n")]

/-- The error raised at source line 154: `write_filename(exc_value.filename)`
passes one argument to the two-parameter `write_filename`, so Python raises
a TypeError at the call. -/
def writeFilenameArityErr : PyErr :=
  .typeErr (pstr "write_filename() missing 1 required positional argument: lineno")

/-- Embeds `_excepthook` (source lines 123-189): the traceback header, the
frame loop, the syntax-error extra block, and the summary line.  For a
syntax error the extra block prints `set_color(); "\tFile "; set_color`
(source lines 151-153) and then raises `TypeError` at source line 154,
because `write_filename` is called there with its `lineno` argument
missing; the rest of that branch (source lines 155-172, including the
underline rendering) is unreachable, and the summary line is never
reached either. -/
def _excepthook (th : Theme) (env : Env) (node : ExcNode) : EW :=
  match node with
  | .mk tm tq kind frames _ _ _ =>
    let head :=
      set_color th .default ++
      [Act.write (pstr "Traceback (most recent call last):\n")] ++
      render_frames th env frames
    match kind with
    | .syntaxError _ _ _ _ _ =>
      (head ++ set_color th .default ++ [Act.write (pstr "\tFile ")] ++
        set_color th .filename,
       .error writeFilenameArityErr)
    | .general str_value =>
      (head ++ summary_acts th tm tq str_value, .ok ())

/-- One chain-transition block (source lines 197-200 and 207-210): dark red
color, a blank line, the transition sentence, another blank line. -/
def chain_sep (msgline : PyStr) : List Act :=
  [Act.setColor [3/4, 0, 0], Act.write (pstr "\n"),
   Act.write (msgline ++ pstr "\n"), Act.write (pstr "\n")]

/-- Source line 199. -/
def cause_msg : PyStr :=
  pstr "The above exception was the direct cause of the following exception:"

/-- Source line 209. -/
def context_msg : PyStr :=
  pstr "During handling of the above exception, another exception occurred:"

/-- The actions of the `except Exception` handler at source lines 213-214:
nothing when the body finished, the raw `traceback.print_exc()` dump of the
caught formatting error otherwise. -/
def fallbackActs : Except PyErr Unit → List Act
  | .ok _ => []
  | .error e => [Act.printExc e]

/-- The `try / except Exception / finally` wrapper of `excepthook` (source
lines 192-216): run the body; a raised error is caught and dumped raw by
`traceback.print_exc()`; the finally block (here the `set_color
("default_text")` actions, which cannot raise in the well-formed-theme
model) always runs last, and the wrapper itself finishes normally. -/
def pyTryExceptFinally (body : EW) (fin : List Act) : EW :=
  (body.1 ++ fallbackActs body.2 ++ fin, .ok ())

/-- Embeds `excepthook` (source lines 191-216).  Inside the protected body:
if the cause link is set, the full hook recurses on the cause and then
prints the direct-cause transition; otherwise, if the context link is set
and not suppressed, it recurses on the context and prints the
during-handling transition; then `_excepthook` renders the node itself.
Each recursive call is itself the full protected hook, as in the source. -/
def excepthook (th : Theme) (env : Env) : ExcNode → EW
  | .mk tm tq kind frames cause ctx sup =>
    let pre : EW :=
      match cause, ctx, sup with
      | some c, _, _ => andEW (excepthook th env c) (chain_sep cause_msg, .ok ())
      | none, some c, false =>
        andEW (excepthook th env c) (chain_sep context_msg, .ok ())
      | none, _, _ => ([], .ok ())
    pyTryExceptFinally
      (andEW pre (_excepthook th env (.mk tm tq kind frames cause ctx sup)))
      (set_color th .default_text)

/-- The body of the `try` block of `excepthook`, with the recursive calls
taken as a parameter, so that statements about the wrapper can name the
body. -/
def excepthook_try (th : Theme) (env : Env) (hook : ExcNode → EW) :
    ExcNode → EW
  | .mk tm tq kind frames cause ctx sup =>
    let pre : EW :=
      match cause, ctx, sup with
      | some c, _, _ => andEW (hook c) (chain_sep cause_msg, .ok ())
      | none, some c, false => andEW (hook c) (chain_sep context_msg, .ok ())
      | none, _, _ => ([], .ok ())
    andEW pre (_excepthook th env (.mk tm tq kind frames cause ctx sup))

/-- The interpreter-global state the display hook mutates: `builtins.Out`
(absent until first created) and `builtins._`. -/
structure DState (α : Type) : Type where
  Out : Option (List α)
  underscore : Option α

/-- Embeds `displayhook` (source lines 100-121).  `None` returns at once.
Otherwise `_` and `Out` are updated first; then the hook prints the green
`Out[index]` marker (index = position of the value just appended), the
` = ` separator in the default text color, and the representation of the
value in the selection tint, restoring the default text color afterwards.
Computing the representation is the external call that may raise (`rep`);
when it raises, the state keeps the new value and the raise propagates out
of the hook. -/
def displayhook {α : Type} (th : Theme) (rep : α → Except PyErr PyStr)
    (st : DState α) (obj : Option α) : DState α × EW :=
  match obj with
  | none => (st, ([], .ok ()))
  | some v =>
    let out0 := st.Out.getD []
    let newOut := out0 ++ [v]
    let st1 : DState α := ⟨some newOut, some v⟩
    let acts0 : List Act :=
      [Act.setColor [0, 1/2, 0],
       Act.write (pstr "Out[" ++ pstr (toString (newOut.length - 1)) ++ pstr "]")] ++
      set_color th .default_text ++
      [Act.write (pstr " = "),
       Act.setColor (hex2rgb th.text_selection_tint)]
    match rep v with
    | .error e => (st1, (acts0, .error e))
    | .ok r =>
      (st1, (acts0 ++ [Act.write (r ++ pstr "\n")] ++ set_color th .default_text,
        .ok ()))

/-- A sequence of interactive evaluations of non-`None` results: runs the
display hook once per value, threading the state and collecting the actions
of each call separately. -/
def runDisplay {α : Type} (th : Theme) (rep : α → Except PyErr PyStr) :
    DState α → List α → DState α × List (List Act)
  | st, [] => (st, [])
  | st, v :: vs =>
    let r := displayhook th rep st (some v)
    let rest := runDisplay th rep r.1 vs
    (rest.1, r.2.1 :: rest.2)

/-- The blended token color exactly as the specification words it: fetch the
scope color and the error color, and take the per-channel arithmetic mean,
each channel independently rounded to two decimal digits.  Stated over the
fetched (`hex2rgb`) colors, to be compared with the color `set_color`
actually sets. -/
def resolveColor_spec (scope_entry err_entry : RGBA) : List ℚ :=
  List.zipWith (fun a b => round2 ((a + b) / 2)) (hex2rgb scope_entry)
    (hex2rgb err_entry)

/-- A concrete theme used for evaluating the hooks at specific inputs. -/
def sampleTheme : Theme :=
  ⟨⟨1, 0, 0, 1⟩, ⟨0, 0, 0, 1⟩, ⟨1/5, 2/5, 3/5, 1⟩,
   ⟨1/10, 1/10, 1/10, 1⟩, ⟨1/4, 1/4, 1/4, 1⟩, ⟨1/2, 1/2, 1/2, 1⟩⟩

/-- A concrete environment used for evaluating the hooks at specific
inputs. -/
def sampleEnv : Env := ⟨[pstr "/a/"], pstr "Pythonista3", fun p => p⟩

/-- A representation function that always succeeds (Python repr on int). -/
def repInt : Int → Except PyErr PyStr := fun n => .ok (pstr (toString n))

/-- A representation function that always raises, modelling a value whose
repr fails. -/
def repFail : Int → Except PyErr PyStr :=
  fun _ => .error (.other (pstr "repr failed"))

/-- The combining-low-line underline marker used at source line 172. -/
def underline_char : Char := '̲'

/-- Whether an emitted action carries the underline marker anywhere in its
text. -/
def hasUnderline : Act → Bool
  | .write s => s.contains underline_char
  | .writeLink s u => s.contains underline_char || u.contains underline_char
  | _ => false

/-- A concrete syntax-error exception with known filename, line, offset and
source text, the kind of input the syntax-error rendering is meant for. -/
def sampleSyntaxNode : ExcNode :=
  .mk (pstr "builtins") (pstr "SyntaxError")
    (.syntaxError (pstr "test.py") 1 3 (some (pstr "x = (")) (pstr "invalid syntax"))
    [⟨pstr "test.py", 1, pstr "<module>", some (pstr "x = (")⟩]
    none none false

/-- Unfolding of the recursive hook into its protected try-body and the
except/finally wrapper. -/
theorem excepthook_eq (th : Theme) (env : Env) (node : ExcNode) :
    excepthook th env node =
      pyTryExceptFinally (excepthook_try th env (excepthook th env) node)
        (set_color th .default_text) := by
  cases node
  rw [excepthook.eq_def]
  rfl

/-- Sequencing after a computation that finished normally appends the
actions. -/
theorem andEW_ok (a b : EW) (h : a.2 = .ok ()) :
    andEW a b = (a.1 ++ b.1, b.2) := by
  unfold andEW
  rw [h]

/-- The protected hook always finishes normally. -/
theorem excepthook_ok (th : Theme) (env : Env) (node : ExcNode) :
    (excepthook th env node).2 = .ok () := by
  rw [excepthook_eq]
  rfl

/-- On a non-syntax exception, `_excepthook` emits the header, the frames
and the summary, and finishes normally. -/
theorem _excepthook_general (th : Theme) (env : Env) (tm tq s : PyStr)
    (frames : List Frame) (cause ctx : Option ExcNode) (sup : Bool) :
    _excepthook th env (.mk tm tq (.general s) frames cause ctx sup) =
      (set_color th .default ++
       [Act.write (pstr "Traceback (most recent call last):\n")] ++
       render_frames th env frames ++ summary_acts th tm tq s, .ok ()) := by
  simp [_excepthook]

/-- When no configured root matches, the stripping loop leaves the path
unchanged. -/
theorem shorten_no_match : ∀ (roots : List PyStr) (q : PyStr),
    (∀ p ∈ roots, p.isPrefixOf q = false) → shorten roots q = q
  | [], _, _ => rfl
  | p :: rest, q, h => by
    have hp : p.isPrefixOf q = false := h p (List.mem_cons_self p rest)
    simp only [shorten, hp, Bool.false_eq_true, if_false]
    exact shorten_no_match rest q (fun p2 hp2 => h p2 (List.mem_cons_of_mem p hp2))

/-- A display-hook call on a value: the state gains the value, and the first
two actions are the green marker color and the index text, where the index
is the length of the history before the append. -/
theorem displayhook_some_state {α : Type} (th : Theme)
    (rep : α → Except PyErr PyStr) (st : DState α) (v : α) :
    (displayhook th rep st (some v)).1 = ⟨some (st.Out.getD [] ++ [v]), some v⟩ ∧
    ((displayhook th rep st (some v)).2.1).take 2 =
      [Act.setColor [0, 1/2, 0],
       Act.write (pstr "Out[" ++ pstr (toString (st.Out.getD []).length) ++ pstr "]")] := by
  cases h : rep v <;> simp [displayhook, h]

/-- `Option.or` after the last element of a nonempty list ignores the
fallback. -/
theorem getLast?_cons_or_self {α : Type} (w : α) (ws : List α) (x : Option α) :
    (w :: ws).getLast?.or x = (w :: ws).getLast? := by
  induction ws generalizing w with
  | nil => rfl
  | cons a as ih =>
    rw [List.getLast?_cons_cons]
    exact ih a

/-- Running the display hook over a value sequence from a state whose
history holds `l`: the history gains the values in order, the last value is
tracked, and the i-th call prints index `l.length + i`. -/
theorem runDisplay_general {α : Type} (th : Theme) (rep : α → Except PyErr PyStr) :
    ∀ (vs l : List α) (u : Option α),
    (runDisplay th rep ⟨some l, u⟩ vs).1.Out = some (l ++ vs) ∧
    (runDisplay th rep ⟨some l, u⟩ vs).1.underscore = vs.getLast?.or u ∧
    (runDisplay th rep ⟨some l, u⟩ vs).2.length = vs.length ∧
    (∀ i (hi : i < (runDisplay th rep ⟨some l, u⟩ vs).2.length),
      ((runDisplay th rep ⟨some l, u⟩ vs).2.get ⟨i, hi⟩).take 2 =
        [Act.setColor [0, 1/2, 0],
         Act.write (pstr "Out[" ++ pstr (toString (l.length + i)) ++ pstr "]")]) := by
  intro vs
  induction vs with
  | nil =>
    intro l u
    refine ⟨by simp [runDisplay], by simp [runDisplay], by simp [runDisplay], ?_⟩
    intro i hi
    simp [runDisplay] at hi
  | cons v vs ih =>
    intro l u
    have hd := displayhook_some_state th rep ⟨some l, u⟩ v
    simp only [Option.getD] at hd
    have hst : (displayhook th rep ⟨some l, u⟩ (some v)).1 = ⟨some (l ++ [v]), some v⟩ :=
      hd.1
    have hrun : runDisplay th rep ⟨some l, u⟩ (v :: vs) =
        ((runDisplay th rep ⟨some (l ++ [v]), some v⟩ vs).1,
         (displayhook th rep ⟨some l, u⟩ (some v)).2.1 ::
           (runDisplay th rep ⟨some (l ++ [v]), some v⟩ vs).2) := by
      simp only [runDisplay, hst]
    have ihh := ih (l ++ [v]) (some v)
    rw [hrun]
    refine ⟨?_, ?_, ?_, ?_⟩
    · rw [ihh.1]
      simp
    · rw [ihh.2.1]
      cases vs with
      | nil => simp
      | cons w ws =>
        rw [List.getLast?_cons_cons]
        exact getLast?_cons_or_self w ws (some v) ▸
          (getLast?_cons_or_self w ws u).symm ▸ rfl
    · simp [ihh.2.2.1]
    · intro i hi
      cases i with
      | zero =>
        simpa using hd.2
      | succ n =>
        simp only [List.get_cons_succ]
        have harith : l.length + (n + 1) = (l ++ [v]).length + n := by
          simp [List.length_append]
          omega
        rw [harith]
        exact ihh.2.2.2 n _

/-- C1: for every exception value whose cause link is set, the hook prints
the recursively formatted cause first, then a blank line, the direct-cause
separator sentence and another blank line, and only then the current
exception rendering (here a fully rendered non-syntax exception), in that
order, ending with the finally-block color restore. -/
theorem excepthook_cause_chain_order (th : Theme) (env : Env)
    (tm tq s : PyStr) (frames : List Frame) (c : ExcNode)
    (ctx : Option ExcNode) (sup : Bool) :
    excepthook th env (.mk tm tq (.general s) frames (some c) ctx sup) =
      ((excepthook th env c).1 ++
       [Act.setColor [3/4, 0, 0], Act.write (pstr "\n"),
        Act.write (cause_msg ++ pstr "\n"), Act.write (pstr "\n")] ++
       (_excepthook th env (.mk tm tq (.general s) frames (some c) ctx sup)).1 ++
       set_color th ColorType.default_text,
       .ok ()) := by
  rw [excepthook_eq]
  simp only [excepthook_try, pyTryExceptFinally]
  rw [andEW_ok _ _ (excepthook_ok th env c)]
  rw [andEW_ok _ _ rfl]
  rw [_excepthook_general]
  simp [fallbackActs, chain_sep, List.append_assoc]

/-- C2: the output of the hook does not depend on the context link when the
suppress flag is set and no cause is present (first part), nor when a cause
is present, whatever the suppress flag (second part): in both cases the
output equals the output for the same node with no context at all, so the
context is neither traversed nor printed. -/
theorem excepthook_context_suppressed_and_ignored (th : Theme) (env : Env)
    (tm tq : PyStr) (kind : ExcKind) (frames : List Frame) (c : ExcNode)
    (ctx : Option ExcNode) (sup : Bool) :
    (excepthook th env (.mk tm tq kind frames none ctx true) =
      excepthook th env (.mk tm tq kind frames none none true)) ∧
    (excepthook th env (.mk tm tq kind frames (some c) ctx sup) =
      excepthook th env (.mk tm tq kind frames (some c) none sup)) := by
  constructor
  · rw [excepthook_eq, excepthook_eq]
    cases ctx <;> rfl
  · rw [excepthook_eq, excepthook_eq]
    cases ctx <;> rfl

/-- C3: for every invocation, the hook finishes normally (the modelled
raises are the ordinary exceptions the except-clause catches): its output
is the try-body output, followed by the raw `traceback.print_exc` dump of
the formatting failure exactly when the body raised, followed in every
case by the restore of the default text color as the final action. -/
theorem excepthook_never_raises_restores_default (th : Theme) (env : Env)
    (node : ExcNode) :
    excepthook th env node =
      ((excepthook_try th env (excepthook th env) node).1 ++
       fallbackActs (excepthook_try th env (excepthook th env) node).2 ++
       [Act.setColor (hex2rgb th.default_text)],
       .ok ()) := by
  rw [excepthook_eq]
  rfl

/-- C4 (failing evaluation): on a concrete syntax error with known source
text and offset the hook does not render the extra location line and the
underlined split source line; instead the body raises the TypeError of the
one-argument `write_filename` call at source line 154, the fallback dump
of that TypeError is printed, and no emitted action contains the
combining-low-line underline marker at all. -/
theorem excepthook_syntax_branch_raises_type_error :
    Act.printExc writeFilenameArityErr ∈
      (excepthook sampleTheme sampleEnv sampleSyntaxNode).1 ∧
    (excepthook sampleTheme sampleEnv sampleSyntaxNode).1.all
      (fun a => !hasUnderline a) = true := by
  rw [excepthook_eq]
  decide

/-- C5: displaying the non-sentinel values v1..vn in order from a fresh
session leaves the history holding exactly v1..vn in order (so index i
holds v(i+1)), the last-value slot holding vn, and the i-th call printing
the index marker `Out[i]`, the position of the value at append time. -/
theorem displayhook_history_indices {α : Type} (th : Theme)
    (rep : α → Except PyErr PyStr) (u0 : Option α) (vs : List α)
    (h : vs ≠ []) :
    (runDisplay th rep ⟨none, u0⟩ vs).1.Out = some vs ∧
    (runDisplay th rep ⟨none, u0⟩ vs).1.underscore = vs.getLast? ∧
    (runDisplay th rep ⟨none, u0⟩ vs).2.length = vs.length ∧
    ∀ i (hi : i < (runDisplay th rep ⟨none, u0⟩ vs).2.length),
      ((runDisplay th rep ⟨none, u0⟩ vs).2.get ⟨i, hi⟩).take 2 =
        [Act.setColor [0, 1/2, 0],
         Act.write (pstr "Out[" ++ pstr (toString i) ++ pstr "]")] := by
  cases vs with
  | nil => exact absurd rfl h
  | cons v vs =>
    have hd := displayhook_some_state th rep ⟨none, u0⟩ v
    simp only [Option.getD, List.nil_append] at hd
    have hst : (displayhook th rep ⟨none, u0⟩ (some v)).1 = ⟨some [v], some v⟩ :=
      hd.1
    have hrun : runDisplay th rep ⟨none, u0⟩ (v :: vs) =
        ((runDisplay th rep ⟨some [v], some v⟩ vs).1,
         (displayhook th rep ⟨none, u0⟩ (some v)).2.1 ::
           (runDisplay th rep ⟨some [v], some v⟩ vs).2) := by
      simp only [runDisplay, hst]
    have ihh := runDisplay_general th rep vs [v] (some v)
    rw [hrun]
    refine ⟨?_, ?_, ?_, ?_⟩
    · rw [ihh.1]
      simp
    · rw [ihh.2.1]
      cases vs with
      | nil => rfl
      | cons w ws =>
        rw [List.getLast?_cons_cons]
        exact getLast?_cons_or_self w ws (some v)
    · simp [ihh.2.2.1]
    · intro i hi
      cases i with
      | zero =>
        simpa using hd.2
      | succ n =>
        simp only [List.get_cons_succ]
        have harith : n + 1 = ([v] : List α).length + n := by
          simp [Nat.add_comm]
        rw [harith]
        exact ihh.2.2.2 n _

/-- Witness for C5 at the concrete sequence [5, 7]. -/
theorem displayhook_history_indices_witness :
    (([5, 7] : List Int) ≠ []) ∧
    ((runDisplay sampleTheme repInt ⟨none, none⟩ [5, 7]).1.Out = some [5, 7] ∧
     (runDisplay sampleTheme repInt ⟨none, none⟩ [5, 7]).1.underscore =
       ([5, 7] : List Int).getLast? ∧
     (runDisplay sampleTheme repInt ⟨none, none⟩ [5, 7]).2.length =
       ([5, 7] : List Int).length ∧
     ∀ i (hi : i < (runDisplay sampleTheme repInt ⟨none, none⟩ [5, 7]).2.length),
       ((runDisplay sampleTheme repInt ⟨none, none⟩ [5, 7]).2.get ⟨i, hi⟩).take 2 =
         [Act.setColor [0, 1/2, 0],
          Act.write (pstr "Out[" ++ pstr (toString i) ++ pstr "]")]) :=
  ⟨by decide, displayhook_history_indices sampleTheme repInt none [5, 7] (by decide)⟩

/-- C6: for each blended token (filename, line number, function name) and
every theme, the color `set_color` sets is exactly the per-channel
arithmetic mean of the fetched scope color and the fetched error color,
each channel rounded to two decimal digits, as `resolveColor_spec` states
it from the specification text; being a pure function of the theme, the
result is deterministic for a fixed theme. -/
theorem set_color_blend_mean_spec (th : Theme) :
    set_color th .filename =
      [Act.setColor (resolveColor_spec th.scope_default th.error_text)] ∧
    set_color th .lineno =
      [Act.setColor (resolveColor_spec th.scope_number th.error_text)] ∧
    set_color th .funcname =
      [Act.setColor (resolveColor_spec th.scope_function th.error_text)] :=
  ⟨rfl, rfl, rfl⟩

/-- C7 (amended): a synthetic marker path is printed unchanged and as plain
text with no editor link; a path matched by no configured root is left
unchanged; and shortening is idempotent for every path whose shortened
form is matched by no configured root (the unconditional idempotence of
the original claim fails, see the counterexample). -/
theorem shorten_marker_nomatch_conditional_idempotent (env : Env)
    (path : PyStr) (lineno : Int) (roots : List PyStr) (q : PyStr) :
    ((pstr "<").isPrefixOf path = true → (pstr ">").isSuffixOf path = true →
      write_filename env path lineno = [Act.write path]) ∧
    ((∀ p ∈ roots, p.isPrefixOf q = false) → shorten roots q = q) ∧
    ((∀ p ∈ roots, p.isPrefixOf (shorten roots q) = false) →
      shorten roots (shorten roots q) = shorten roots q) := by
  refine ⟨fun h1 h2 => ?_, fun h => shorten_no_match roots q h,
    fun h => shorten_no_match roots (shorten roots q) h⟩
  simp [write_filename, h1, h2]

/-- Counterexample to C7 as stated: with the configured root "/a/", the
path "/a//a/x" shortens to "/a/x", which still starts with the root, so a
second shortening changes it again — shortening is not idempotent on every
path. -/
theorem shorten_idempotence_counterexample :
    shorten [pstr "/a/"] (shorten [pstr "/a/"] (pstr "/a//a/x")) ≠
      shorten [pstr "/a/"] (pstr "/a//a/x") := by decide

/-- Witness for the amended C7 at concrete inputs. -/
theorem shorten_marker_nomatch_conditional_idempotent_witness :
    write_filename sampleEnv (pstr "<stdin>") 3 = [Act.write (pstr "<stdin>")] ∧
    shorten [pstr "/a/"] (pstr "Documents/x.py") = pstr "Documents/x.py" ∧
    shorten [pstr "/a/"] (shorten [pstr "/a/"] (pstr "Documents/x.py")) =
      shorten [pstr "/a/"] (pstr "Documents/x.py") :=
  ⟨(shorten_marker_nomatch_conditional_idempotent sampleEnv (pstr "<stdin>") 3
      [pstr "/a/"] (pstr "Documents/x.py")).1 (by decide) (by decide),
   (shorten_marker_nomatch_conditional_idempotent sampleEnv (pstr "<stdin>") 3
      [pstr "/a/"] (pstr "Documents/x.py")).2.1 (by decide),
   (shorten_marker_nomatch_conditional_idempotent sampleEnv (pstr "<stdin>") 3
      [pstr "/a/"] (pstr "Documents/x.py")).2.2 (by decide)⟩

/-- C8: the sentinel value None leaves the display hook inert under the
default configuration: no output, no history append, last value
unchanged. -/
theorem displayhook_none_noop {α : Type} (th : Theme)
    (rep : α → Except PyErr PyStr) (st : DState α) :
    displayhook th rep st none = (st, ([], .ok ())) := rfl

/-- C9: a frame whose source text is the empty string renders exactly like
a frame with no source text, and the rendered actions contain the
placeholder source line. -/
theorem render_frame_empty_text_placeholder (th : Theme) (env : Env)
    (f : PyStr) (l : Int) (fn : PyStr) :
    render_frame th env ⟨f, l, fn, some (pstr "")⟩ =
      render_frame th env ⟨f, l, fn, none⟩ ∧
    Act.write (pstr "\t\t" ++ pstr "# Source code unavailable" ++ pstr "\n") ∈
      render_frame th env ⟨f, l, fn, some (pstr "")⟩ := by
  constructor
  · rfl
  · simp [render_frame, orElseFalsy, pstr]

/-- C10: when computing the representation of a non-None value raises, the
raise propagates out of the display hook (the result carries the error)
while the history already holds the appended value and the last-value slot
already holds it: the state update precedes the output, so it is not
rolled back on a display failure. -/
theorem displayhook_updates_state_before_output {α : Type} (th : Theme)
    (rep : α → Except PyErr PyStr) (st : DState α) (v : α) (e : PyErr)
    (h : rep v = .error e) :
    displayhook th rep st (some v) =
      (⟨some (st.Out.getD [] ++ [v]), some v⟩,
       ([Act.setColor [0, 1/2, 0],
         Act.write (pstr "Out[" ++
           pstr (toString ((st.Out.getD [] ++ [v]).length - 1)) ++ pstr "]")] ++
        set_color th .default_text ++
        [Act.write (pstr " = "),
         Act.setColor (hex2rgb th.text_selection_tint)],
        .error e)) := by
  simp [displayhook, h]

/-- Witness for C10 at a concrete failing representation. -/
theorem displayhook_updates_state_before_output_witness :
    repFail 5 = Except.error (PyErr.other (pstr "repr failed")) ∧
    displayhook sampleTheme repFail ⟨some [(1 : Int)], some 1⟩ (some 5) =
      (⟨some [1, 5], some 5⟩,
       ([Act.setColor [0, 1/2, 0],
         Act.write (pstr "Out[" ++ pstr (toString (1 : Nat)) ++ pstr "]")] ++
        set_color sampleTheme ColorType.default_text ++
        [Act.write (pstr " = "),
         Act.setColor (hex2rgb sampleTheme.text_selection_tint)],
        Except.error (PyErr.other (pstr "repr failed")))) :=
  ⟨rfl, displayhook_updates_state_before_output sampleTheme repFail
    ⟨some [(1 : Int)], some 1⟩ 5 _ rfl⟩
